import Mathlib

/-!
Shallow embedding of the resilient OHLC acquisition layer of
`ENHANCED_YAHOO_FINANCE_FETCHER.py` (class `YahooFinanceFetcherEnhanced`
together with `CacheEntry`, `CacheStatistics`, `CircuitBreaker` and
`DataValidationReport`), and proofs about it.

Modelling conventions:
- Python floats are `PyVal` (a rational, NaN, or an infinity); comparisons
  follow IEEE semantics (anything compared with NaN is false).
- The monotonic clock readings `time.monotonic()` taken during one call are
  modelled as a single instant `now : ℚ` passed to the call; the wall clock
  `datetime.utcnow()` used only by the freshness check is a separate
  parameter `wallNow`.
- Logging calls (`logger.*`) are not modelled: they affect no program state.
- The provider `ticker.history(...)` is a parameter `provider : Nat →
  ProviderResp` giving, per 1-based attempt, either a raw frame or a raised
  exception message.
- Reference/aliasing behaviour of `DataFrame.copy()` (needed for the cache
  round-trip property) is modelled separately on an explicit heap of frames.
-/

namespace YF

/-- Python float values as they occur in the OHLC frame: a finite rational,
NaN, or an infinity. -/
inductive PyVal where
  | num (q : ℚ)
  | nan
  | inf
  | ninf
deriving DecidableEq

/-- Python `<` on floats: every comparison involving NaN is false. -/
def pvLt : PyVal → PyVal → Bool
  | .num a, .num b => a < b
  | .num _, .inf => true
  | .ninf, .num _ => true
  | .ninf, .inf => true
  | _, _ => false

/-- Python `>` on floats. -/
def pvGt (a b : PyVal) : Bool := pvLt b a

/-- pandas `isna`: true exactly on NaN. -/
def pvIsNa : PyVal → Bool
  | .nan => true
  | _ => false

/-- membership in `[np.inf, -np.inf]`. -/
def pvIsInf : PyVal → Bool
  | .inf => true
  | .ninf => true
  | _ => false

/-- Python float addition restricted to the cases that occur. -/
def pvAdd : PyVal → PyVal → PyVal
  | .nan, _ => .nan
  | _, .nan => .nan
  | .num a, .num b => .num (a + b)
  | .inf, .ninf => .nan
  | .ninf, .inf => .nan
  | .inf, _ => .inf
  | _, .inf => .inf
  | .ninf, _ => .ninf
  | _, .ninf => .ninf

/-- pandas column `.min()` with the default `skipna=True`: NaN on an
all-NaN (or empty) column, else the least non-NaN value. -/
def colMin (xs : List PyVal) : PyVal :=
  match xs.filter (fun x => !pvIsNa x) with
  | [] => .nan
  | y :: t => t.foldl (fun acc x => if pvLt x acc then x else acc) y

/-- pandas column `.max()` with the default `skipna=True`. -/
def colMax (xs : List PyVal) : PyVal :=
  match xs.filter (fun x => !pvIsNa x) with
  | [] => .nan
  | y :: t => t.foldl (fun acc x => if pvLt acc x then x else acc) y

/-- pandas column `.sum()` with the default `skipna=True`. -/
def colSum (xs : List PyVal) : PyVal :=
  (xs.filter (fun x => !pvIsNa x)).foldl pvAdd (.num 0)

/-- One row of the canonical OHLC frame. The Python column `open` is the
field `open_` because `open` is a Lean keyword. Timestamps are seconds since
the epoch. -/
structure Bar where
  timestamp : Int
  open_ : PyVal
  high : PyVal
  low : PyVal
  close : PyVal
  volume : PyVal
deriving DecidableEq

/-- A pandas DataFrame restricted to the canonical bar columns: the list of
column names actually present, plus the row data. A column's values are only
ever read after the code has checked the column is present. -/
structure DataFrame where
  columns : List String
  rows : List Bar
deriving DecidableEq

/-- Values stored in `DataValidationReport.stats`: `row_count` is an int,
`price_range` a four-key dict, `volume_total` a number. -/
inductive StatVal where
  | count (n : Nat)
  | priceRange (omin omax cmin cmax : PyVal)
  | value (v : PyVal)
deriving DecidableEq

/-- class `DataValidationReport`: `is_valid=True`, empty `errors`,
`warnings` and `stats` on construction. -/
structure DataValidationReport where
  is_valid : Bool := true
  errors : List String := []
  warnings : List String := []
  stats : List (String × StatVal) := []
deriving DecidableEq

/-- a freshly constructed `DataValidationReport()`. -/
def DataValidationReport.init : DataValidationReport := {}

/-- method `add_error`: sets `is_valid=False` and appends the message. -/
def DataValidationReport.add_error (r : DataValidationReport) (e : String) :
    DataValidationReport :=
  { r with is_valid := false, errors := r.errors ++ [e] }

/-- method `add_warning`: appends the message, validity unchanged. -/
def DataValidationReport.add_warning (r : DataValidationReport) (w : String) :
    DataValidationReport :=
  { r with warnings := r.warnings ++ [w] }

/-- method `add_stat`: records a key/value pair (keys used are distinct). -/
def DataValidationReport.add_stat (r : DataValidationReport) (k : String)
    (v : StatVal) : DataValidationReport :=
  { r with stats := r.stats ++ [(k, v)] }

/-- The configuration constants imported from `config` by the fetcher. -/
structure Config where
  retry_attempts : Nat
  retry_delay : ℚ
  retry_max_delay : ℚ
  retry_jitter_enabled : Bool
  rate_limit_backoff : ℚ
  rate_limit_max_backoff : ℚ
  cache_ttl : ℚ
  cache_enabled : Bool
  cache_validation : Bool
  validate_ohlc_relationships : Bool
  validate_data_freshness : Bool
  validate_no_duplicates : Bool
  validate_no_nan_values : Bool
  validate_volume_positive : Bool
  data_freshness_max_age_seconds : ℚ
  data_freshness_min_age_seconds : ℚ
deriving DecidableEq

/-- the `required_cols` list of `_validate_ohlc_data`. -/
def required_cols : List String :=
  ["timestamp", "open", "high", "low", "close", "volume"]

/-- number of rows of `df` satisfying a predicate (a boolean-mask `.sum()`). -/
def countRows (df : DataFrame) (p : Bar → Bool) : Nat :=
  (df.rows.filter p).length

/-- helper for `duplicated().sum()`: counts elements equal to some earlier
element, given the already-seen elements. -/
def dupAux : List Int → List Int → Nat
  | _, [] => 0
  | seen, t :: ts => (if seen.contains t then 1 else 0) + dupAux (t :: seen) ts

/-- pandas `duplicated().sum()` on the timestamp column: the number of
occurrences beyond each value's first. -/
def dupCount (ts : List Int) : Nat := dupAux [] ts

/-- pandas `.max()` on the timestamp column (only used on non-empty data). -/
def tsMax : List Int → Int
  | [] => 0
  | t :: ts => ts.foldl max t

/-- the OHLC-relationship block of `_validate_ohlc_data` (lines 226-247). -/
def relationalChecks (df : DataFrame) (report : DataValidationReport) :
    DataValidationReport :=
  let invalid_hl := countRows df (fun b => pvLt b.high b.low)
  let report :=
    if invalid_hl > 0 then report.add_error s!"{invalid_hl} bars with High < Low"
    else report
  let invalid_h_open := countRows df (fun b => pvLt b.high b.open_)
  let invalid_h_close := countRows df (fun b => pvLt b.high b.close)
  let report :=
    if invalid_h_open > 0 then
      report.add_error s!"{invalid_h_open} bars with High < Open"
    else report
  let report :=
    if invalid_h_close > 0 then
      report.add_error s!"{invalid_h_close} bars with High < Close"
    else report
  let invalid_l_open := countRows df (fun b => pvGt b.low b.open_)
  let invalid_l_close := countRows df (fun b => pvGt b.low b.close)
  let report :=
    if invalid_l_open > 0 then
      report.add_error s!"{invalid_l_open} bars with Low > Open"
    else report
  let report :=
    if invalid_l_close > 0 then
      report.add_error s!"{invalid_l_close} bars with Low > Close"
    else report
  report

/-- the NaN/inf block of `_validate_ohlc_data` (lines 249-257). -/
def nanChecks (df : DataFrame) (report : DataValidationReport) :
    DataValidationReport :=
  let nan_counts : List (String × Nat) :=
    [("open", countRows df (fun b => pvIsNa b.open_)),
     ("high", countRows df (fun b => pvIsNa b.high)),
     ("low", countRows df (fun b => pvIsNa b.low)),
     ("close", countRows df (fun b => pvIsNa b.close)),
     ("volume", countRows df (fun b => pvIsNa b.volume))]
  let nanTotal := (nan_counts.map (fun kv => kv.2)).sum
  let report :=
    if nanTotal > 0 then
      report.add_error s!"Found {nanTotal} NaN values: {nan_counts}"
    else report
  let infTotal :=
    countRows df (fun b => pvIsInf b.open_) + countRows df (fun b => pvIsInf b.high)
      + countRows df (fun b => pvIsInf b.low) + countRows df (fun b => pvIsInf b.close)
  if infTotal > 0 then report.add_error s!"Found {infTotal} inf values"
  else report

/-- the volume block of `_validate_ohlc_data` (lines 259-263). -/
def volumeCheck (df : DataFrame) (report : DataValidationReport) :
    DataValidationReport :=
  let negative_volume := countRows df (fun b => pvLt b.volume (.num 0))
  if negative_volume > 0 then
    report.add_error s!"{negative_volume} bars with negative volume"
  else report

/-- the duplicate-timestamp block of `_validate_ohlc_data` (lines 265-269). -/
def duplicatesCheck (df : DataFrame) (report : DataValidationReport) :
    DataValidationReport :=
  let duplicate_timestamps := dupCount (df.rows.map (fun b => b.timestamp))
  if duplicate_timestamps > 0 then
    report.add_error s!"{duplicate_timestamps} duplicate timestamps"
  else report

/-- the freshness block of `_validate_ohlc_data` (lines 271-282); `wallNow`
is `datetime.utcnow()` in seconds since the epoch. -/
def freshnessCheck (cfg : Config) (wallNow : ℚ) (df : DataFrame)
    (report : DataValidationReport) : DataValidationReport :=
  let latest_timestamp := tsMax (df.rows.map (fun b => b.timestamp))
  let age_seconds : ℚ := wallNow - (latest_timestamp : ℚ)
  let report :=
    if age_seconds > cfg.data_freshness_max_age_seconds then
      report.add_warning s!"Data is stale: {age_seconds}s old"
    else report
  if age_seconds < cfg.data_freshness_min_age_seconds then
    report.add_error s!"Data from future: {age_seconds}s"
  else report

/-- the statistics block of `_validate_ohlc_data` (lines 284-292), run on
every path that passed the two structural short-circuits. -/
def statsBlock (df : DataFrame) (report : DataValidationReport) :
    DataValidationReport :=
  let report := report.add_stat "row_count" (.count df.rows.length)
  let report := report.add_stat "price_range"
    (.priceRange (colMin (df.rows.map (fun b => b.open_)))
      (colMax (df.rows.map (fun b => b.open_)))
      (colMin (df.rows.map (fun b => b.close)))
      (colMax (df.rows.map (fun b => b.close))))
  report.add_stat "volume_total" (.value (colSum (df.rows.map (fun b => b.volume))))

/-- method `_validate_ohlc_data` (lines 203-294): empty-frame and
missing-column short-circuits, then the five independently toggled check
blocks, then the statistics block. -/
def validate_ohlc_data (cfg : Config) (wallNow : ℚ) (df : DataFrame) :
    DataValidationReport :=
  let report := DataValidationReport.init
  if df.rows.isEmpty then report.add_error "DataFrame is empty"
  else
    let missing_cols := required_cols.filter (fun c => !df.columns.contains c)
    if !missing_cols.isEmpty then
      report.add_error s!"Missing columns: {missing_cols}"
    else
      let report :=
        if cfg.validate_ohlc_relationships then relationalChecks df report else report
      let report :=
        if cfg.validate_no_nan_values then nanChecks df report else report
      let report :=
        if cfg.validate_volume_positive then volumeCheck df report else report
      let report :=
        if cfg.validate_no_duplicates then duplicatesCheck df report else report
      let report :=
        if cfg.validate_data_freshness then freshnessCheck cfg wallNow df report
        else report
      statsBlock df report

/-- class `CircuitBreaker` (lines 69-109): threshold and reset interval are
fixed at construction, the rest is the mutable state. `last_failure_time` is
`None` at construction. -/
structure CircuitBreaker where
  threshold : Nat
  reset_interval : ℚ
  failure_count : Nat
  last_failure_time : Option ℚ
  is_open : Bool
deriving DecidableEq

/-- method `record_success` (lines 79-84): unconditionally zeroes the
failure count and closes the breaker. -/
def CircuitBreaker.record_success (cb : CircuitBreaker) : CircuitBreaker :=
  { cb with failure_count := 0, is_open := false }

/-- method `record_failure` (lines 86-93): increments the count, stamps the
monotonic instant, and opens the breaker once the count reaches the
threshold (it is never closed here). -/
def CircuitBreaker.record_failure (cb : CircuitBreaker) (now : ℚ) :
    CircuitBreaker :=
  let fc := cb.failure_count + 1
  { cb with
    failure_count := fc,
    last_failure_time := some now,
    is_open := if cb.threshold ≤ fc then true else cb.is_open }

/-- method `can_attempt` (lines 95-109), returning the result together with
the updated state. The guard `if self.last_failure_time:` is Python
truthiness, so a stored instant of exactly 0.0 behaves like `None`. -/
def CircuitBreaker.can_attempt (cb : CircuitBreaker) (now : ℚ) :
    Bool × CircuitBreaker :=
  if !cb.is_open then (true, cb)
  else
    match cb.last_failure_time with
    | some t =>
      if t = 0 then (false, cb)
      else if cb.reset_interval ≤ now - t then
        (true, { cb with failure_count := 0, is_open := false })
      else (false, cb)
    | none => (false, cb)

/-- method `_calculate_backoff_delay` (lines 155-183); `jitter` stands for
the `random.uniform(0, 1)` draw, added only when jitter is enabled. -/
def calculate_backoff_delay (cfg : Config) (attempt : Nat)
    (is_rate_limit : Bool) (jitter : ℚ) : ℚ :=
  let base_delay :=
    if is_rate_limit then cfg.rate_limit_backoff * 2 ^ (attempt - 1)
    else cfg.retry_delay * 2 ^ (attempt - 1)
  let max_delay :=
    if is_rate_limit then cfg.rate_limit_max_backoff else cfg.retry_max_delay
  let delay := min base_delay max_delay
  if cfg.retry_jitter_enabled then delay + jitter else delay

/-- class `CacheEntry` (lines 46-53). `data` here is the frame value; the
reference-level effect of `self.data = data.copy()` is modelled on the
explicit heap further below. -/
structure CacheEntry where
  data : DataFrame
  metadata : String × String
  creation_time : ℚ
  hit_count : Nat
  validation_passed : Bool
deriving DecidableEq

/-- constructor `CacheEntry.__init__`: stamps the monotonic creation
instant, zero hits, `validation_passed=False`. -/
def CacheEntry.mk_init (data : DataFrame) (metadata : String × String)
    (now : ℚ) : CacheEntry :=
  { data := data, metadata := metadata, creation_time := now,
    hit_count := 0, validation_passed := false }

/-- class `CacheStatistics` (lines 56-66). -/
structure CacheStatistics where
  hits : Nat := 0
  misses : Nat := 0
  invalidations : Nat := 0
  evictions : Nat := 0
deriving DecidableEq

/-- method `hit_rate`. -/
def CacheStatistics.hit_rate (s : CacheStatistics) : ℚ :=
  let total := s.hits + s.misses
  if total > 0 then (s.hits : ℚ) / (total : ℚ) * 100 else 0

/-- The instance state of `YahooFinanceFetcherEnhanced` that the claims are
about: cache slot, cache statistics, optional circuit breaker (absent when
`CIRCUIT_BREAKER_ENABLED` is false), rate-limit cooldown deadline and the
last fetch instant. -/
structure FetcherState where
  cache : Option CacheEntry
  cache_stats : CacheStatistics
  circuit_breaker : Option CircuitBreaker
  rate_limit_until : ℚ
  last_fetch_time : Option ℚ
deriving DecidableEq

/-- method `clear_cache` (lines 520-524). -/
def clear_cache (st : FetcherState) : FetcherState :=
  { st with cache := none, cache_stats := {} }

/-- method `_is_cache_valid` (lines 185-201), returning the result together
with the updated state: a check that finds the entry expired increments
`invalidations` as a side effect, every time. -/
def is_cache_valid (cfg : Config) (st : FetcherState) (now : ℚ) :
    Bool × FetcherState :=
  match st.cache with
  | none => (false, st)
  | some entry =>
    let age := now - entry.creation_time
    let is_valid := decide (age < cfg.cache_ttl)
    if !is_valid then
      (is_valid,
        { st with cache_stats :=
            { st.cache_stats with
                invalidations := st.cache_stats.invalidations + 1 } })
    else (is_valid, st)

/-- method `_should_use_cache` (lines 296-321): disabled, expired and
validation-blocked paths each count a miss; the hit path counts a hit and
bumps the entry's hit counter. -/
def should_use_cache (cfg : Config) (st : FetcherState) (now : ℚ) :
    Bool × FetcherState :=
  if !cfg.cache_enabled then
    (false,
      { st with cache_stats :=
          { st.cache_stats with misses := st.cache_stats.misses + 1 } })
  else
    let r := is_cache_valid cfg st now
    let st := r.2
    if !r.1 then
      (false,
        { st with cache_stats :=
            { st.cache_stats with misses := st.cache_stats.misses + 1 } })
    else
      let validation_blocked :=
        match st.cache with
        | some entry => cfg.cache_validation && !entry.validation_passed
        | none => false
      if validation_blocked then
        (false,
          { st with cache_stats :=
              { st.cache_stats with misses := st.cache_stats.misses + 1 } })
      else
        let st :=
          { st with cache_stats :=
              { st.cache_stats with hits := st.cache_stats.hits + 1 } }
        let st :=
          match st.cache with
          | some entry =>
            { st with cache := some { entry with hit_count := entry.hit_count + 1 } }
          | none => st
        (true, st)

/-- The raw frame returned by `ticker.history(...)` after `reset_index()`:
its column names (before lowercasing) and its row data. As with `DataFrame`,
a column's values are read only once its presence has been established. -/
structure RawFrame where
  columns : List String
  rows : List Bar
deriving DecidableEq

/-- One provider behaviour for one attempt: either a returned frame or a
raised exception carrying its message `str(e)`. -/
inductive ProviderResp where
  | frame (raw : RawFrame)
  | raise (msg : String)
deriving DecidableEq

/-- What one iteration of the retry loop observes after the provider call
and the normalization steps (lines 370-407). -/
inductive AttemptOutcome where
  | emptyResp
  | noDatetime
  | success (df : DataFrame)
  | exc (msg : String)
deriving DecidableEq

/-- insertion step of the timestamp sort. -/
def insertByTs (b : Bar) : List Bar → List Bar
  | [] => [b]
  | x :: xs =>
    if x.timestamp ≤ b.timestamp then x :: insertByTs b xs else b :: x :: xs

/-- `df.sort_values('timestamp')`: sort rows ascending by timestamp. -/
def sortByTs : List Bar → List Bar
  | [] => []
  | b :: bs => insertByTs b (sortByTs bs)

/-- character-list matcher: does the text start with the pattern. -/
def startsWithPat : List Char → List Char → Bool
  | [], _ => true
  | _ :: _, [] => false
  | p :: ps, c :: cs => (p == c) && startsWithPat ps cs

/-- character-list matcher: does the pattern occur anywhere in the text. -/
def containsPat (pat : List Char) : List Char → Bool
  | [] => pat.isEmpty
  | c :: cs => startsWithPat pat (c :: cs) || containsPat pat cs

/-- Python `t in s` on strings. -/
def strContains (s t : String) : Bool := containsPat t.toList s.toList

/-- Normalization of one provider response inside the `try` block (lines
370-407): empty frame detected first; then columns are lowercased and a
`datetime`/`date` column is required (else the no-datetime early return);
then `df[required_cols]` raises a KeyError, caught by the `except`, when a
canonical column is absent; finally rows are sorted by timestamp. -/
def attemptOutcome (resp : ProviderResp) : AttemptOutcome :=
  match resp with
  | .raise m => .exc m
  | .frame raw =>
    if raw.rows.isEmpty then .emptyResp
    else
      let cols := raw.columns.map String.toLower
      if cols.contains "datetime" || cols.contains "date" then
        let cols := cols ++ ["timestamp"]
        let missing :=
          ["open", "high", "low", "close", "volume"].filter
            (fun c => !cols.contains c)
        if !missing.isEmpty then .exc "KeyError"
        else .success { columns := required_cols, rows := sortByTs raw.rows }
      else .noDatetime

/-- the guard `if self.circuit_breaker and not self.circuit_breaker.can_attempt()`
(line 343): absent breaker always allows; otherwise `can_attempt` runs, with
its state update. -/
def gateBreaker (st : FetcherState) (now : ℚ) : Bool × FetcherState :=
  match st.circuit_breaker with
  | some cb =>
    let r := cb.can_attempt now
    (r.1, { st with circuit_breaker := some r.2 })
  | none => (true, st)

/-- `if self.circuit_breaker: self.circuit_breaker.record_failure()`. -/
def stRecordFailure (st : FetcherState) (now : ℚ) : FetcherState :=
  match st.circuit_breaker with
  | some cb => { st with circuit_breaker := some (cb.record_failure now) }
  | none => st

/-- `if self.circuit_breaker: self.circuit_breaker.record_success()`. -/
def stRecordSuccess (st : FetcherState) : FetcherState :=
  match st.circuit_breaker with
  | some cb => { st with circuit_breaker := some cb.record_success }
  | none => st

/-- Exceptions that could escape `fetch_ohlc` itself: the only unguarded
attribute access outside the `try` block is `self.cache.data` on the
cache-hit path. -/
inductive PyExc where
  | attributeError (msg : String)
deriving DecidableEq

/-- The retry loop of `fetch_ohlc` (lines 364-462): attempts are 1-based up
to `retry_attempts`; the last component counts provider calls made. An empty
response retries and, on the last attempt, records a breaker failure; a
missing datetime column records a failure and returns at once; success
validates, stores the cache entry (when caching is enabled) with
`validation_passed` set from the report, records breaker success and stamps
`last_fetch_time`; a caught exception marks the rate-limited flag on a
`429`/`rate` message, retries while attempts remain, and on exhaustion sets
the rate-limit cooldown (when flagged) and records a breaker failure.
Falling out of the loop returns `(None, DataValidationReport())`. -/
def fetchLoop (cfg : Config) (now jitter wallNow : ℚ) (period interval : String)
    (provider : Nat → ProviderResp) (st : FetcherState) (is_rate_limited : Bool)
    (calls : Nat) (attempt : Nat) :
    FetcherState × Option DataFrame × DataValidationReport × Nat :=
  if _h : cfg.retry_attempts < attempt then
    (st, none, DataValidationReport.init, calls)
  else
    let calls := calls + 1
    match attemptOutcome (provider attempt) with
    | .emptyResp =>
      if attempt < cfg.retry_attempts then
        fetchLoop cfg now jitter wallNow period interval provider st
          is_rate_limited calls (attempt + 1)
      else
        (stRecordFailure st now, none, DataValidationReport.init, calls)
    | .noDatetime =>
      (stRecordFailure st now, none, DataValidationReport.init, calls)
    | .success df =>
      let report := validate_ohlc_data cfg wallNow df
      let entry := CacheEntry.mk_init df (period, interval) now
      let entry := { entry with validation_passed := report.is_valid }
      let st :=
        if cfg.cache_enabled then { st with cache := some entry } else st
      let st := stRecordSuccess st
      let st := { st with last_fetch_time := some now }
      (st, some df, report, calls)
    | .exc m =>
      let is_rate_limited :=
        is_rate_limited || strContains m "429" || strContains m.toLower "rate"
      if attempt < cfg.retry_attempts then
        fetchLoop cfg now jitter wallNow period interval provider st
          is_rate_limited calls (attempt + 1)
      else
        let st :=
          if is_rate_limited then
            { st with rate_limit_until :=
                now + calculate_backoff_delay cfg attempt true jitter }
          else st
        (stRecordFailure st now, none, DataValidationReport.init, calls)
termination_by cfg.retry_attempts + 1 - attempt
decreasing_by all_goals omega

/-- method `fetch_ohlc` (lines 323-462): breaker gate, rate-limit gate,
cache path, then the retry loop. The result is the updated state, the
`(DataFrame|None, report)` pair, and the number of provider calls made; the
`Except` layer records the one place an exception could escape the method:
the unguarded `self.cache.data` access on the hit path. The `validate` flag
only controls logging in the source, so it has no effect here. -/
def fetch_ohlc (cfg : Config) (st : FetcherState) (now jitter wallNow : ℚ)
    (period interval : String) (use_cache validate : Bool)
    (provider : Nat → ProviderResp) :
    Except PyExc (FetcherState × Option DataFrame × DataValidationReport × Nat) :=
  let _ := validate
  let gate := gateBreaker st now
  if !gate.1 then .ok (gate.2, none, DataValidationReport.init, 0)
  else
    let st := gate.2
    if now < st.rate_limit_until then .ok (st, none, DataValidationReport.init, 0)
    else
      let cacheDecision :=
        if use_cache then should_use_cache cfg st now else (false, st)
      let st := cacheDecision.2
      if cacheDecision.1 then
        match st.cache with
        | some entry =>
          .ok (st, some entry.data,
            { DataValidationReport.init with is_valid := entry.validation_passed }, 0)
        | none => .error (.attributeError "NoneType object has no attribute data")
      else
        .ok (fetchLoop cfg now jitter wallNow period interval provider st false 0 1)

/-- sequence of `record_failure` calls at the given monotonic instants. -/
def applyFailures (cb : CircuitBreaker) (times : List ℚ) : CircuitBreaker :=
  times.foldl (fun c t => c.record_failure t) cb

/-- Heap of frame objects, for the reference-level copy semantics of
`DataFrame.copy()`: a reference is an index into the allocation list. -/
abbrev Heap := List DataFrame

/-- a frame reference. -/
abbrev Ref := Nat

/-- dereference (out-of-range reads yield an empty frame; the modelled code
never reads a dangling reference). -/
def heapGet (h : Heap) (r : Ref) : DataFrame :=
  h.getD r { columns := [], rows := [] }

/-- allocate a fresh frame object. -/
def heapAlloc (h : Heap) (d : DataFrame) : Heap × Ref := (h ++ [d], h.length)

/-- in-place mutation of the frame object behind a reference. -/
def heapSet (h : Heap) (r : Ref) (d : DataFrame) : Heap := h.set r d

/-- pandas `DataFrame.copy()`: a freshly allocated frame with the same
contents. -/
def dfCopy (h : Heap) (r : Ref) : Heap × Ref := heapAlloc h (heapGet h r)

/-- the line `self.data = data.copy()` of `CacheEntry.__init__` (line 49):
the entry keeps a private copy of the caller's frame. -/
def cacheStoreData (h : Heap) (callerRef : Ref) : Heap × Ref := dfCopy h callerRef

/-- the line `df = self.cache.data.copy()` of the cache-hit path of
`fetch_ohlc` (line 355): the caller receives a private copy of the entry's
frame. -/
def cacheReadData (h : Heap) (entryRef : Ref) : Heap × Ref := dfCopy h entryRef

/-- A concrete configuration with the relational checks enabled and the
other validator checks disabled; retry/backoff values follow the comments in
the source (2s base, three attempts, 5-minute rate-limit base). -/
def cfgRelOnly : Config :=
  { retry_attempts := 3, retry_delay := 2, retry_max_delay := 8,
    retry_jitter_enabled := false, rate_limit_backoff := 300,
    rate_limit_max_backoff := 3600, cache_ttl := 50, cache_enabled := true,
    cache_validation := true, validate_ohlc_relationships := true,
    validate_data_freshness := false, validate_no_duplicates := false,
    validate_no_nan_values := false, validate_volume_positive := false,
    data_freshness_max_age_seconds := 300,
    data_freshness_min_age_seconds := -60 }

/-- the same configuration with the require-validation cache policy off. -/
def cfgNoVal : Config := { cfgRelOnly with cache_validation := false }

/-- a frame holding the single bar `{open=11, high=10, low=12, close=11}`. -/
def df1 : DataFrame :=
  { columns := required_cols,
    rows := [{ timestamp := 0, open_ := .num 11, high := .num 10,
               low := .num 12, close := .num 11, volume := .num 100 }] }

/-- an empty frame. -/
def dfEmpty : DataFrame := { columns := [], rows := [] }

/-- a concrete cache entry created at monotonic instant 0 that failed
validation. -/
def entry1 : CacheEntry :=
  { data := df1, metadata := ("1d", "1m"), creation_time := 0,
    hit_count := 0, validation_passed := false }

/-- a concrete fetcher state holding `entry1`, fresh statistics, no circuit
breaker and no pending rate limit. -/
def st1 : FetcherState :=
  { cache := some entry1, cache_stats := {}, circuit_breaker := none,
    rate_limit_until := 0, last_fetch_time := none }

/-- a freshly constructed breaker with threshold 3 and reset interval 60. -/
def cb0w : CircuitBreaker :=
  { threshold := 3, reset_interval := 60, failure_count := 0,
    last_failure_time := none, is_open := false }

/-- the concrete state whose breaker has just seen the three consecutive
failures at monotonic instants 1, 2, 3. -/
def stC4 : FetcherState :=
  { st1 with circuit_breaker := some (applyFailures cb0w [1, 2, 3]) }

theorem add_error_stats (r : DataValidationReport) (e : String) :
    (r.add_error e).stats = r.stats := rfl

theorem add_warning_stats (r : DataValidationReport) (w : String) :
    (r.add_warning w).stats = r.stats := rfl

theorem ite_add_error_stats (p : Prop) [Decidable p]
    (r : DataValidationReport) (e : String) :
    (if p then r.add_error e else r).stats = r.stats := by
  split <;> rfl

theorem ite_add_warning_stats (p : Prop) [Decidable p]
    (r : DataValidationReport) (w : String) :
    (if p then r.add_warning w else r).stats = r.stats := by
  split <;> rfl

theorem relationalChecks_stats (df : DataFrame) (r : DataValidationReport) :
    (relationalChecks df r).stats = r.stats := by
  simp [relationalChecks, ite_add_error_stats]

theorem nanChecks_stats (df : DataFrame) (r : DataValidationReport) :
    (nanChecks df r).stats = r.stats := by
  simp [nanChecks, ite_add_error_stats]

theorem volumeCheck_stats (df : DataFrame) (r : DataValidationReport) :
    (volumeCheck df r).stats = r.stats := by
  simp [volumeCheck, ite_add_error_stats]

theorem duplicatesCheck_stats (df : DataFrame) (r : DataValidationReport) :
    (duplicatesCheck df r).stats = r.stats := by
  simp [duplicatesCheck, ite_add_error_stats]

theorem freshnessCheck_stats (cfg : Config) (wallNow : ℚ) (df : DataFrame)
    (r : DataValidationReport) :
    (freshnessCheck cfg wallNow df r).stats = r.stats := by
  simp [freshnessCheck, ite_add_error_stats, ite_add_warning_stats]

theorem cond_relationalChecks_stats (b : Bool) (df : DataFrame)
    (r : DataValidationReport) :
    (if b then relationalChecks df r else r).stats = r.stats := by
  cases b <;> simp [relationalChecks_stats]

theorem cond_nanChecks_stats (b : Bool) (df : DataFrame)
    (r : DataValidationReport) :
    (if b then nanChecks df r else r).stats = r.stats := by
  cases b <;> simp [nanChecks_stats]

theorem cond_volumeCheck_stats (b : Bool) (df : DataFrame)
    (r : DataValidationReport) :
    (if b then volumeCheck df r else r).stats = r.stats := by
  cases b <;> simp [volumeCheck_stats]

theorem cond_duplicatesCheck_stats (b : Bool) (df : DataFrame)
    (r : DataValidationReport) :
    (if b then duplicatesCheck df r else r).stats = r.stats := by
  cases b <;> simp [duplicatesCheck_stats]

theorem cond_freshnessCheck_stats (b : Bool) (cfg : Config) (wallNow : ℚ)
    (df : DataFrame) (r : DataValidationReport) :
    (if b then freshnessCheck cfg wallNow df r else r).stats = r.stats := by
  cases b <;> simp [freshnessCheck_stats]

/-- C1 counterexample: on the single bar `{open=11, high=10, low=12,
close=11}`, the validator with relational checks enabled reports five error
lines, not exactly one, so the claimed report shape is false. -/
theorem C1_five_errors_counterexample :
    (validate_ohlc_data cfgRelOnly 0 df1).is_valid = false ∧
    (validate_ohlc_data cfgRelOnly 0 df1).errors.length = 5 ∧
    (validate_ohlc_data cfgRelOnly 0 df1).errors.length ≠ 1 := by
  decide

/-- C1 amended: the bar violates all five OHLC relations, so the report has
`isValid=false` and exactly these five error lines with count 1 each, the
"high<low" line among them. -/
theorem C1_relational_errors :
    (validate_ohlc_data cfgRelOnly 0 df1).errors =
      ["1 bars with High < Low", "1 bars with High < Open",
       "1 bars with High < Close", "1 bars with Low > Open",
       "1 bars with Low > Close"] ∧
    (validate_ohlc_data cfgRelOnly 0 df1).is_valid = false := by
  decide

/-- C2 counterexample: with the breaker open after three failures (last at
monotonic instant 5) and an elapsed reset interval, `can_attempt` at instant
100 changes the breaker state, so the state is not mutated only by
`record_success`/`record_failure`. -/
theorem C2_canAttempt_mutates :
    (CircuitBreaker.can_attempt
        { threshold := 3, reset_interval := 60, failure_count := 3,
          last_failure_time := some 5, is_open := true } 100).2 ≠
      { threshold := 3, reset_interval := 60, failure_count := 3,
        last_failure_time := some 5, is_open := true } := by
  norm_num [CircuitBreaker.can_attempt]

/-- C2 amended: besides `record_success` and `record_failure`, the only
mutation of the breaker state is `can_attempt`'s implicit probe reset: it
leaves the state unchanged except when the breaker is open and the reset
interval has elapsed since a nonzero last-failure instant, in which case it
sets `failure_count := 0` and `is_open := false` and changes nothing else. -/
theorem C2_mutation_only_probe (cb : CircuitBreaker) (now : ℚ) :
    (cb.can_attempt now).2 = cb ∨
    ((cb.can_attempt now).2 = { cb with failure_count := 0, is_open := false } ∧
      cb.is_open = true ∧
      ∃ t, cb.last_failure_time = some t ∧ t ≠ 0 ∧
        cb.reset_interval ≤ now - t) := by
  cases ho : cb.is_open with
  | false => left; simp [CircuitBreaker.can_attempt, ho]
  | true =>
    cases hl : cb.last_failure_time with
    | none => left; simp [CircuitBreaker.can_attempt, ho, hl]
    | some t =>
      by_cases ht : t = 0
      · left; simp [CircuitBreaker.can_attempt, ho, hl, ht]
      · by_cases hr : cb.reset_interval ≤ now - t
        · right
          refine ⟨?_, rfl, t, rfl, ht, hr⟩
          simp [CircuitBreaker.can_attempt, ho, hl, ht, hr]
        · left; simp [CircuitBreaker.can_attempt, ho, hl, ht, hr]

/-- C5: with jitter disabled the non-rate-limited backoff delay is
`min(baseDelay * 2^(attempt-1), maxDelay)`; it is non-decreasing in the
attempt number, equals `maxDelay` once the doubled base reaches it, and with
`baseDelay=2, maxDelay=8` the first three attempts get delays 2, 4, 8. -/
theorem C5_backoff_delay (cfg : Config) (hj : cfg.retry_jitter_enabled = false)
    (hd : 0 ≤ cfg.retry_delay) (j : ℚ) :
    (∀ a, calculate_backoff_delay cfg a false j =
        min (cfg.retry_delay * 2 ^ (a - 1)) cfg.retry_max_delay)
    ∧ (∀ a b, a ≤ b →
        calculate_backoff_delay cfg a false j ≤
          calculate_backoff_delay cfg b false j)
    ∧ (∀ a, cfg.retry_max_delay ≤ cfg.retry_delay * 2 ^ (a - 1) →
        calculate_backoff_delay cfg a false j = cfg.retry_max_delay)
    ∧ calculate_backoff_delay
        { cfg with retry_delay := 2, retry_max_delay := 8 } 1 false j = 2
    ∧ calculate_backoff_delay
        { cfg with retry_delay := 2, retry_max_delay := 8 } 2 false j = 4
    ∧ calculate_backoff_delay
        { cfg with retry_delay := 2, retry_max_delay := 8 } 3 false j = 8 := by
  have hbase : ∀ a, calculate_backoff_delay cfg a false j =
      min (cfg.retry_delay * 2 ^ (a - 1)) cfg.retry_max_delay := by
    intro a
    simp [calculate_backoff_delay, hj]
  refine ⟨hbase, ?_, ?_, ?_, ?_, ?_⟩
  · intro a b hab
    rw [hbase a, hbase b]
    refine min_le_min ?_ le_rfl
    have h2 : (2 : ℚ) ^ (a - 1) ≤ 2 ^ (b - 1) :=
      pow_le_pow_right₀ (by norm_num) (by omega)
    exact mul_le_mul_of_nonneg_left h2 hd
  · intro a ha
    rw [hbase a]
    exact min_eq_right ha
  all_goals
    simp [calculate_backoff_delay, hj]
    norm_num

/-- C5 witness at the configuration with `baseDelay=2, maxDelay=8`. -/
theorem C5_backoff_delay_witness :
    cfgRelOnly.retry_jitter_enabled = false ∧ 0 ≤ cfgRelOnly.retry_delay ∧
    calculate_backoff_delay
      { cfgRelOnly with retry_delay := 2, retry_max_delay := 8 } 3 false 0 = 8 :=
  ⟨rfl, by norm_num [cfgRelOnly],
    (C5_backoff_delay cfgRelOnly rfl (by norm_num [cfgRelOnly]) 0).2.2.2.2.2⟩

/-- C3 counterexample: on the empty frame the validator short-circuits with
the single structural error and returns before the statistics block, so
`stats` is empty and not populated for every input. -/
theorem C3_empty_stats_counterexample :
    (validate_ohlc_data cfgRelOnly 0 dfEmpty).stats = [] ∧
    (validate_ohlc_data cfgRelOnly 0 dfEmpty).is_valid = false := by
  decide

/-- C3 amended: for every input frame that passes the two structural
short-circuits (at least one row and all required columns present), `stats`
records the row count, min/max of open and close, and the total volume —
independently of every check flag, hence also when `is_valid` is false; the
empty-frame and missing-column short-circuits leave `stats` empty. -/
theorem C3_stats_always_populated (cfg : Config) (wallNow : ℚ)
    (df : DataFrame) (h1 : df.rows ≠ [])
    (h2 : ∀ c ∈ required_cols, c ∈ df.columns) :
    (validate_ohlc_data cfg wallNow df).stats =
      [("row_count", .count df.rows.length),
       ("price_range",
         .priceRange (colMin (df.rows.map (fun b => b.open_)))
           (colMax (df.rows.map (fun b => b.open_)))
           (colMin (df.rows.map (fun b => b.close)))
           (colMax (df.rows.map (fun b => b.close)))),
       ("volume_total", .value (colSum (df.rows.map (fun b => b.volume))))] := by
  have he : df.rows.isEmpty = false := by
    cases hr : df.rows with
    | nil => exact absurd hr h1
    | cons a l => rfl
  have hnm : ¬ ∃ x ∈ required_cols, x ∉ df.columns := by
    push_neg
    exact h2
  unfold validate_ohlc_data
  simp [he, hnm, statsBlock, DataValidationReport.add_stat,
    DataValidationReport.init, cond_relationalChecks_stats,
    cond_nanChecks_stats, cond_volumeCheck_stats, cond_duplicatesCheck_stats,
    cond_freshnessCheck_stats]

/-- C3 witness at the one-bar frame: the short-circuit hypotheses hold and
the stats are populated although the report is invalid. -/
theorem C3_stats_always_populated_witness :
    df1.rows ≠ [] ∧
    (validate_ohlc_data cfgRelOnly 0 df1).stats =
      [("row_count", StatVal.count 1),
       ("price_range", .priceRange (.num 11) (.num 11) (.num 11) (.num 11)),
       ("volume_total", .value (.num 100))] := by
  refine ⟨by decide, ?_⟩
  rw [C3_stats_always_populated cfgRelOnly 0 df1 (by decide) (by decide)]
  simp [df1, colMin, colMax, colSum, pvAdd, pvIsNa]

theorem icv_none (cfg : Config) (st : FetcherState) (now : ℚ)
    (h : st.cache = none) : is_cache_valid cfg st now = (false, st) := by
  simp [is_cache_valid, h]

theorem icv_expired (cfg : Config) (st : FetcherState) (now : ℚ)
    (entry : CacheEntry) (hc : st.cache = some entry)
    (ht : cfg.cache_ttl ≤ now - entry.creation_time) :
    is_cache_valid cfg st now =
      (false, { st with cache_stats :=
          { st.cache_stats with
              invalidations := st.cache_stats.invalidations + 1 } }) := by
  simp [is_cache_valid, hc, not_lt.mpr ht]

theorem icv_fresh (cfg : Config) (st : FetcherState) (now : ℚ)
    (entry : CacheEntry) (hc : st.cache = some entry)
    (ht : now - entry.creation_time < cfg.cache_ttl) :
    is_cache_valid cfg st now = (true, st) := by
  simp [is_cache_valid, hc, ht]

theorem shc_disabled (cfg : Config) (st : FetcherState) (now : ℚ)
    (hen : cfg.cache_enabled = false) :
    should_use_cache cfg st now =
      (false, { st with cache_stats :=
          { st.cache_stats with misses := st.cache_stats.misses + 1 } }) := by
  simp [should_use_cache, hen]

theorem shc_none (cfg : Config) (st : FetcherState) (now : ℚ)
    (hen : cfg.cache_enabled = true) (hc : st.cache = none) :
    should_use_cache cfg st now =
      (false, { st with cache_stats :=
          { st.cache_stats with misses := st.cache_stats.misses + 1 } }) := by
  simp [should_use_cache, hen, icv_none cfg st now hc]

theorem shc_expired (cfg : Config) (st : FetcherState) (now : ℚ)
    (entry : CacheEntry) (hen : cfg.cache_enabled = true)
    (hc : st.cache = some entry)
    (ht : cfg.cache_ttl ≤ now - entry.creation_time) :
    should_use_cache cfg st now =
      (false, { st with cache_stats :=
          { st.cache_stats with
              misses := st.cache_stats.misses + 1,
              invalidations := st.cache_stats.invalidations + 1 } }) := by
  simp [should_use_cache, hen, icv_expired cfg st now entry hc ht]

theorem shc_blocked (cfg : Config) (st : FetcherState) (now : ℚ)
    (entry : CacheEntry) (hen : cfg.cache_enabled = true)
    (hc : st.cache = some entry)
    (ht : now - entry.creation_time < cfg.cache_ttl)
    (hv : cfg.cache_validation = true)
    (hp : entry.validation_passed = false) :
    should_use_cache cfg st now =
      (false, { st with cache_stats :=
          { st.cache_stats with misses := st.cache_stats.misses + 1 } }) := by
  simp [should_use_cache, hen, icv_fresh cfg st now entry hc ht, hc, hv, hp]

theorem shc_hit (cfg : Config) (st : FetcherState) (now : ℚ)
    (entry : CacheEntry) (hen : cfg.cache_enabled = true)
    (hc : st.cache = some entry)
    (ht : now - entry.creation_time < cfg.cache_ttl)
    (hok : cfg.cache_validation = false ∨ entry.validation_passed = true) :
    should_use_cache cfg st now =
      (true, { st with
          cache := some { entry with hit_count := entry.hit_count + 1 },
          cache_stats :=
            { st.cache_stats with hits := st.cache_stats.hits + 1 } }) := by
  rcases hok with hok | hok <;>
    simp [should_use_cache, hen, icv_fresh cfg st now entry hc ht, hc, hok]

/-- C6: with an entry present, the cache-use decision is a hit exactly when
caching is enabled, the entry's monotonic age is strictly below the TTL, and
the require-validation policy is off or the entry passed validation; a hit
increments `hits` and the entry's `hit_count` leaving `misses` unchanged,
and every other path increments `misses` leaving `hits` unchanged. -/
theorem C6_cache_hit_iff (cfg : Config) (st : FetcherState) (now : ℚ)
    (entry : CacheEntry) (hc : st.cache = some entry) :
    ((should_use_cache cfg st now).1 = true ↔
      (cfg.cache_enabled = true ∧ now - entry.creation_time < cfg.cache_ttl ∧
        (cfg.cache_validation = false ∨ entry.validation_passed = true)))
    ∧ ((should_use_cache cfg st now).1 = true →
        (should_use_cache cfg st now).2.cache_stats.hits =
            st.cache_stats.hits + 1 ∧
        (should_use_cache cfg st now).2.cache =
            some { entry with hit_count := entry.hit_count + 1 } ∧
        (should_use_cache cfg st now).2.cache_stats.misses =
            st.cache_stats.misses)
    ∧ ((should_use_cache cfg st now).1 = false →
        (should_use_cache cfg st now).2.cache_stats.misses =
            st.cache_stats.misses + 1 ∧
        (should_use_cache cfg st now).2.cache_stats.hits =
            st.cache_stats.hits) := by
  cases hen : cfg.cache_enabled with
  | false =>
    rw [shc_disabled cfg st now hen]
    simp
  | true =>
    by_cases ht : now - entry.creation_time < cfg.cache_ttl
    · cases hv : cfg.cache_validation with
      | false =>
        rw [shc_hit cfg st now entry hen hc ht (Or.inl hv)]
        simp [ht]
      | true =>
        cases hp : entry.validation_passed with
        | true =>
          rw [shc_hit cfg st now entry hen hc ht (Or.inr hp)]
          simp [ht, hp]
        | false =>
          rw [shc_blocked cfg st now entry hen hc ht hv hp]
          simp [ht, hv, hp]
    · rw [shc_expired cfg st now entry hen hc (le_of_not_lt ht)]
      simp [ht]

/-- C6 witness: a hit at age 10 < TTL 50 with the require-validation policy
off, from the concrete state `st1`. -/
theorem C6_cache_hit_iff_witness :
    st1.cache = some entry1 ∧
    ((should_use_cache cfgNoVal st1 10).1 = true ↔
      (cfgNoVal.cache_enabled = true ∧
        (10 : ℚ) - entry1.creation_time < cfgNoVal.cache_ttl ∧
        (cfgNoVal.cache_validation = false ∨
          entry1.validation_passed = true))) :=
  ⟨rfl, (C6_cache_hit_iff cfgNoVal st1 10 entry1 rfl).1⟩

/-- C9: with an entry whose TTL has expired, every `_is_cache_valid` call
returns false and increments `invalidations` again — two consecutive calls
add two — and, with caching enabled, `_should_use_cache` then also counts a
miss for that same check; the check is not idempotent with respect to the
statistics. -/
theorem C9_expiry_check_counts_every_time (cfg : Config) (st : FetcherState)
    (now : ℚ) (entry : CacheEntry) (hc : st.cache = some entry)
    (ht : cfg.cache_ttl ≤ now - entry.creation_time) :
    (is_cache_valid cfg st now).1 = false
    ∧ (is_cache_valid cfg st now).2.cache_stats.invalidations =
        st.cache_stats.invalidations + 1
    ∧ (is_cache_valid cfg (is_cache_valid cfg st now).2 now).2.cache_stats.invalidations =
        st.cache_stats.invalidations + 2
    ∧ (cfg.cache_enabled = true →
        (should_use_cache cfg st now).1 = false
        ∧ (should_use_cache cfg st now).2.cache_stats.invalidations =
            st.cache_stats.invalidations + 1
        ∧ (should_use_cache cfg st now).2.cache_stats.misses =
            st.cache_stats.misses + 1) := by
  have h1 := icv_expired cfg st now entry hc ht
  have h2 := icv_expired cfg
    { st with cache_stats :=
        { st.cache_stats with
            invalidations := st.cache_stats.invalidations + 1 } }
    now entry (by simpa using hc) ht
  refine ⟨by rw [h1], by rw [h1], ?_, ?_⟩
  · rw [h1, h2]
  · intro hen
    rw [shc_expired cfg st now entry hen hc ht]
    simp

/-- C9 witness: the concrete state `st1` checked at instant 51, past the TTL
of 50, with caching enabled. -/
theorem C9_expiry_check_counts_every_time_witness :
    st1.cache = some entry1 ∧
    cfgNoVal.cache_ttl ≤ (51 : ℚ) - entry1.creation_time ∧
    (is_cache_valid cfgNoVal
        (is_cache_valid cfgNoVal st1 51).2 51).2.cache_stats.invalidations =
      st1.cache_stats.invalidations + 2 := by
  have ht : cfgNoVal.cache_ttl ≤ (51 : ℚ) - entry1.creation_time := by
    norm_num [cfgNoVal, cfgRelOnly, entry1]
  exact ⟨rfl, ht,
    (C9_expiry_check_counts_every_time cfgNoVal st1 51 entry1 rfl ht).2.2.1⟩

theorem shc_true_elim (cfg : Config) (st : FetcherState) (now : ℚ)
    (entry : CacheEntry) (hc : st.cache = some entry)
    (h : (should_use_cache cfg st now).1 = true) :
    should_use_cache cfg st now =
      (true, { st with
          cache := some { entry with hit_count := entry.hit_count + 1 },
          cache_stats :=
            { st.cache_stats with hits := st.cache_stats.hits + 1 } }) := by
  cases hen : cfg.cache_enabled with
  | false =>
    rw [shc_disabled cfg st now hen] at h
    simp at h
  | true =>
    by_cases ht : now - entry.creation_time < cfg.cache_ttl
    · cases hv : cfg.cache_validation with
      | false => exact shc_hit cfg st now entry hen hc ht (Or.inl hv)
      | true =>
        cases hp : entry.validation_passed with
        | true => rw [shc_hit cfg st now entry hen hc ht (Or.inr hp), hp]
        | false =>
          rw [shc_blocked cfg st now entry hen hc ht hv hp] at h
          simp at h
    · rw [shc_expired cfg st now entry hen hc (le_of_not_lt ht)] at h
      simp at h

theorem shc_true_cache_isSome (cfg : Config) (st : FetcherState) (now : ℚ)
    (h : (should_use_cache cfg st now).1 = true) :
    ∃ e, (should_use_cache cfg st now).2.cache = some e := by
  cases hc : st.cache with
  | none =>
    cases hen : cfg.cache_enabled with
    | false =>
      rw [shc_disabled cfg st now hen] at h
      simp at h
    | true =>
      rw [shc_none cfg st now hen hc] at h
      simp at h
  | some entry =>
    refine ⟨{ entry with hit_count := entry.hit_count + 1 }, ?_⟩
    rw [shc_true_elim cfg st now entry hc h]

theorem gateBreaker_rate (st : FetcherState) (now : ℚ) :
    (gateBreaker st now).2.rate_limit_until = st.rate_limit_until := by
  unfold gateBreaker
  cases h : st.circuit_breaker <;> simp

/-- C10: on the cache-hit path (breaker gate passes, no rate-limit cooldown,
cache decision is a hit), `fetch_ohlc` returns the cached frame together
with a report whose `is_valid` copies the entry's `validation_passed` flag
while `errors` and `warnings` are empty — so a caller can receive
`isValid=false` with zero error items. -/
theorem C10_hit_report_shape (cfg : Config) (st : FetcherState)
    (now jitter wallNow : ℚ) (period interval : String) (validate : Bool)
    (provider : Nat → ProviderResp) (entry : CacheEntry)
    (hgate : (gateBreaker st now).1 = true)
    (hrl : st.rate_limit_until ≤ now)
    (hc : (gateBreaker st now).2.cache = some entry)
    (hhit : (should_use_cache cfg (gateBreaker st now).2 now).1 = true) :
    fetch_ohlc cfg st now jitter wallNow period interval true validate provider =
      .ok ((should_use_cache cfg (gateBreaker st now).2 now).2,
        some entry.data,
        { is_valid := entry.validation_passed, errors := [], warnings := [],
          stats := [] }, 0) := by
  have hmain := shc_true_elim cfg (gateBreaker st now).2 now entry hc hhit
  have hrl2 : ¬ now < (gateBreaker st now).2.rate_limit_until := by
    rw [gateBreaker_rate]
    exact not_lt.mpr hrl
  simp only [fetch_ohlc, hgate, Bool.not_true, Bool.false_eq_true, if_false,
    if_true, hrl2, hmain]
  simp [DataValidationReport.init]

/-- C10 witness: from the concrete state `st1` (whose entry failed
validation) at instant 10 with the require-validation policy off, the fetch
returns the cached frame with `isValid=false` and empty error and warning
lists. -/
theorem C10_hit_report_shape_witness :
    (should_use_cache cfgNoVal (gateBreaker st1 10).2 10).1 = true ∧
    fetch_ohlc cfgNoVal st1 10 0 0 "1d" "1m" true true (fun _ => .raise "x") =
      .ok ((should_use_cache cfgNoVal (gateBreaker st1 10).2 10).2,
        some entry1.data,
        { is_valid := false, errors := [], warnings := [], stats := [] }, 0) := by
  have hhit : (should_use_cache cfgNoVal (gateBreaker st1 10).2 10).1 = true := by
    rw [shc_hit cfgNoVal (gateBreaker st1 10).2 10 entry1 rfl rfl
      (by norm_num [cfgNoVal, cfgRelOnly, entry1]) (Or.inl rfl)]
  have h := C10_hit_report_shape cfgNoVal st1 10 0 0 "1d" "1m" true
    (fun _ => .raise "x") entry1 rfl (by norm_num [st1]) rfl hhit
  exact ⟨hhit, h⟩

/-- C7: for every configuration, state, clock reading, argument combination
and provider behaviour (empty frames, malformed shapes, raised transport or
rate-limit errors, success), `fetch_ohlc` returns an `.ok` result pair — no
exception escapes it. -/
theorem C7_fetch_total (cfg : Config) (st : FetcherState)
    (now jitter wallNow : ℚ) (period interval : String)
    (use_cache validate : Bool) (provider : Nat → ProviderResp) :
    ∃ v, fetch_ohlc cfg st now jitter wallNow period interval use_cache
        validate provider = .ok v := by
  simp only [fetch_ohlc]
  split
  · exact ⟨_, rfl⟩
  split
  · exact ⟨_, rfl⟩
  split
  · split
    · next hhit =>
        obtain ⟨e, he⟩ := shc_true_cache_isSome cfg _ now hhit
        rw [he]
        exact ⟨_, rfl⟩
    · exact ⟨_, rfl⟩
  · split
    · next hhit => simp at hhit
    · exact ⟨_, rfl⟩

theorem applyFailures_cons (cb : CircuitBreaker) (t : ℚ) (ts : List ℚ) :
    applyFailures cb (t :: ts) = applyFailures (cb.record_failure t) ts := rfl

theorem applyFailures_threshold (cb : CircuitBreaker) (ts : List ℚ) :
    (applyFailures cb ts).threshold = cb.threshold := by
  induction ts generalizing cb with
  | nil => rfl
  | cons t ts ih => rw [applyFailures_cons, ih]; rfl

theorem applyFailures_interval (cb : CircuitBreaker) (ts : List ℚ) :
    (applyFailures cb ts).reset_interval = cb.reset_interval := by
  induction ts generalizing cb with
  | nil => rfl
  | cons t ts ih => rw [applyFailures_cons, ih]; rfl

theorem applyFailures_last (cb : CircuitBreaker) (ts : List ℚ) (tl : ℚ)
    (h : ts.getLast? = some tl) :
    (applyFailures cb ts).last_failure_time = some tl := by
  induction ts generalizing cb with
  | nil => simp at h
  | cons t ts ih =>
    cases ts with
    | nil =>
      simp at h
      simp [applyFailures, CircuitBreaker.record_failure, h]
    | cons u us =>
      rw [applyFailures_cons]
      exact ih (cb.record_failure t) (by simpa using h)

theorem applyFailures_open (cb : CircuitBreaker) (ts : List ℚ) (h : ts ≠ [])
    (hth : cb.threshold ≤ cb.failure_count + ts.length) :
    (applyFailures cb ts).is_open = true := by
  induction ts generalizing cb with
  | nil => exact absurd rfl h
  | cons t ts ih =>
    cases ts with
    | nil =>
      simp at hth
      simp [applyFailures, CircuitBreaker.record_failure]
      exact Or.inl hth
    | cons u us =>
      rw [applyFailures_cons]
      refine ih (cb.record_failure t) (by simp) ?_
      have hcount : (cb.record_failure t).failure_count = cb.failure_count + 1 := rfl
      have hthr : (cb.record_failure t).threshold = cb.threshold := rfl
      rw [hcount, hthr]
      simp at hth ⊢
      omega

/-- C4: after at least `threshold` consecutive `record_failure` calls (from
any starting state, with no intervening `record_success`), `can_attempt` at
any instant strictly before `resetInterval` past the last failure returns
false without changing the state — so every subsequent call does the same —
and a `fetch_ohlc` call on a state holding this breaker short-circuits: it
makes zero provider calls and returns `(None, empty report)` with the state
unchanged. -/
theorem C4_open_breaker_blocks (cb0 : CircuitBreaker) (times : List ℚ)
    (tl : ℚ) (hl : times.getLast? = some tl)
    (hth : cb0.threshold ≤ times.length) (now : ℚ)
    (hnow : now - tl < cb0.reset_interval) :
    (applyFailures cb0 times).can_attempt now = (false, applyFailures cb0 times)
    ∧ ∀ (cfg : Config) (st : FetcherState) (jitter wallNow : ℚ)
        (period interval : String) (use_cache validate : Bool)
        (provider : Nat → ProviderResp),
        st.circuit_breaker = some (applyFailures cb0 times) →
        fetch_ohlc cfg st now jitter wallNow period interval use_cache
            validate provider =
          .ok (st, none, DataValidationReport.init, 0) := by
  have hne : times ≠ [] := by
    intro hnil
    rw [hnil] at hl
    simp at hl
  have hopen : (applyFailures cb0 times).is_open = true :=
    applyFailures_open cb0 times hne (by omega)
  have hlast : (applyFailures cb0 times).last_failure_time = some tl :=
    applyFailures_last cb0 times tl hl
  have hint : (applyFailures cb0 times).reset_interval = cb0.reset_interval :=
    applyFailures_interval cb0 times
  have hca : (applyFailures cb0 times).can_attempt now =
      (false, applyFailures cb0 times) := by
    unfold CircuitBreaker.can_attempt
    rw [hopen, hlast, hint]
    by_cases ht0 : tl = 0
    · simp [ht0]
    · simp [ht0, not_le.mpr hnow]
  refine ⟨hca, ?_⟩
  intro cfg st jitter wallNow period interval use_cache validate provider hst
  have hgate : gateBreaker st now = (false, st) := by
    unfold gateBreaker
    rw [hst]
    simp only [hca]
    refine congrArg (fun s => (false, s)) ?_
    cases st
    simp at hst
    simp [hst]
  simp [fetch_ohlc, hgate]

/-- C4 witness: breaker with threshold 3 after failures at instants 1, 2, 3,
checked at instant 10, well within the reset interval of 60; the concrete
fetch makes no provider call. -/
theorem C4_open_breaker_blocks_witness :
    ([1, 2, 3] : List ℚ).getLast? = some 3 ∧
    (applyFailures cb0w [1, 2, 3]).can_attempt 10 =
      (false, applyFailures cb0w [1, 2, 3]) ∧
    fetch_ohlc cfgNoVal stC4 10 0 0 "1d" "1m" true true (fun _ => .raise "boom") =
      .ok (stC4, none, DataValidationReport.init, 0) := by
  have h := C4_open_breaker_blocks cb0w [1, 2, 3] 3 rfl (by decide) 10
    (by norm_num [cb0w])
  exact ⟨rfl, h.1,
    h.2 cfgNoVal stC4 0 0 "1d" "1m" true true (fun _ => .raise "boom") rfl⟩

theorem heapGet_alloc_old (h : Heap) (d : DataFrame) (r : Ref)
    (hr : r < h.length) : heapGet (h ++ [d]) r = heapGet h r := by
  simp [heapGet, List.getD_eq_getElem?_getD, List.getElem?_append, hr]

theorem heapGet_alloc_new (h : Heap) (d : DataFrame) :
    heapGet (h ++ [d]) h.length = d := by
  simp [heapGet, List.getD_eq_getElem?_getD,
    List.getElem?_append_right (le_refl h.length)]

theorem heapGet_set_ne (h : Heap) (r e : Ref) (d : DataFrame) (hne : r ≠ e) :
    heapGet (heapSet h r d) e = heapGet h e := by
  simp [heapGet, heapSet, List.getD_eq_getElem?_getD, List.getElem?_set_ne hne]

theorem heapGet_read (h : Heap) (e : Ref) :
    heapGet (cacheReadData h e).1 (cacheReadData h e).2 = heapGet h e := by
  simp only [cacheReadData, dfCopy, heapAlloc]
  exact heapGet_alloc_new h (heapGet h e)

/-- C8: the cache round-trip is by private copies. Storing a frame (the
`data.copy()` in `CacheEntry.__init__`) allocates a fresh entry object, and a
cache read (the `self.cache.data.copy()` on the hit path) allocates a fresh
result object, so the three references are pairwise distinct; mutating the
retrieved copy, or the caller's original frame, changes neither the entry's
contents nor what a subsequent retrieval returns. -/
theorem C8_cache_deep_copy (h0 : Heap) (r0 : Ref) (hr : r0 < h0.length)
    (d d2 : DataFrame) (h1 : Heap) (e : Ref)
    (hstore : cacheStoreData h0 r0 = (h1, e))
    (h2 : Heap) (r1 : Ref) (hread : cacheReadData h1 e = (h2, r1)) :
    r1 ≠ e ∧ e ≠ r0
    ∧ heapGet (heapSet h2 r1 d) e = heapGet h0 r0
    ∧ heapGet (cacheReadData (heapSet h2 r1 d) e).1
        (cacheReadData (heapSet h2 r1 d) e).2 = heapGet h0 r0
    ∧ heapGet (heapSet h2 r0 d2) e = heapGet h0 r0
    ∧ heapGet (cacheReadData (heapSet h2 r0 d2) e).1
        (cacheReadData (heapSet h2 r0 d2) e).2 = heapGet h0 r0 := by
  have he1 : h1 = h0 ++ [heapGet h0 r0] := (congrArg Prod.fst hstore).symm
  have he2 : e = h0.length := (congrArg Prod.snd hstore).symm
  have hr1 : h2 = h1 ++ [heapGet h1 e] := (congrArg Prod.fst hread).symm
  have hr2 : r1 = h1.length := (congrArg Prod.snd hread).symm
  subst he1 he2 hr1 hr2
  have hlen : (h0 ++ [heapGet h0 r0]).length = h0.length + 1 := by simp
  have hne1 : (h0 ++ [heapGet h0 r0]).length ≠ h0.length := by
    rw [hlen]; exact Nat.succ_ne_self _
  have hne0 : h0.length ≠ r0 := (ne_of_lt hr).symm
  have hentry :
      heapGet (h0 ++ [heapGet h0 r0] ++ [heapGet (h0 ++ [heapGet h0 r0]) h0.length])
        h0.length = heapGet h0 r0 := by
    rw [heapGet_alloc_old _ _ h0.length (by rw [hlen]; exact Nat.lt_succ_self _),
      heapGet_alloc_new]
  have hmut1 :
      heapGet (heapSet (h0 ++ [heapGet h0 r0] ++
          [heapGet (h0 ++ [heapGet h0 r0]) h0.length])
          (h0 ++ [heapGet h0 r0]).length d) h0.length = heapGet h0 r0 := by
    rw [heapGet_set_ne _ _ _ _ hne1]
    exact hentry
  have hmut2 :
      heapGet (heapSet (h0 ++ [heapGet h0 r0] ++
          [heapGet (h0 ++ [heapGet h0 r0]) h0.length]) r0 d2) h0.length =
        heapGet h0 r0 := by
    rw [heapGet_set_ne _ _ _ _ (Ne.symm hne0)]
    exact hentry
  refine ⟨hne1, hne0, hmut1, ?_, hmut2, ?_⟩
  · rw [heapGet_read]
    exact hmut1
  · rw [heapGet_read]
    exact hmut2

/-- C8 witness: heap holding the one concrete frame `df1`, stored and read
back, mutated with the empty frame. -/
theorem C8_cache_deep_copy_witness :
    (0 : Ref) < ([df1] : Heap).length ∧
    heapGet
      (heapSet (cacheReadData (cacheStoreData [df1] 0).1
          (cacheStoreData [df1] 0).2).1
        (cacheReadData (cacheStoreData [df1] 0).1 (cacheStoreData [df1] 0).2).2
        dfEmpty)
      (cacheStoreData [df1] 0).2 = heapGet [df1] 0 := by
  refine ⟨by decide, ?_⟩
  exact (C8_cache_deep_copy [df1] 0 (by decide) dfEmpty dfEmpty
    (cacheStoreData [df1] 0).1 (cacheStoreData [df1] 0).2 rfl
    (cacheReadData (cacheStoreData [df1] 0).1 (cacheStoreData [df1] 0).2).1
    (cacheReadData (cacheStoreData [df1] 0).1 (cacheStoreData [df1] 0).2).2
    rfl).2.2.1

end YF
